import Mathlib

/-!
Verification of the whitelist HTTP API (`whitelist-api.py`) against its
specification.  Python strings are modelled as lists of characters
(`PyStr`); the flask request objects are modelled as structures holding the
query parameters, the parsed JSON body and the `Authorization` header; the
remote repository is modelled as a map from `(branch, path)` to file text;
the git subprocess calls and the scratch-workspace lifecycle are modelled by
an oracle (`MutatorWorld`) saying which external steps succeed, together
with an effect record (`AddEffects`).  The character-level primitives
(`strip`, `lower`, `split`, `isalnum`, base64, UTF-8) model Python's
behaviour on ASCII data, which is the alphabet the program works with.
-/

/-- A Python string, modelled as its sequence of code points. -/
abbrev PyStr := List Char

/-- Turn a Lean string literal into a `PyStr`. -/
def pstr (s : String) : PyStr := s.data

/-- Python `str.isspace` / the characters stripped by `str.strip()` (ASCII part). -/
def pyIsSpace (c : Char) : Bool :=
  c = ' ' ∨ c = '\t' ∨ c = '\n' ∨ c = '\r' ∨ c = '\x0b' ∨ c = '\x0c'

/-- Python `str.lstrip()`. -/
def pyStripLeft (s : PyStr) : PyStr := s.dropWhile pyIsSpace

/-- Python `str.rstrip()`. -/
def pyStripRight (s : PyStr) : PyStr := (s.reverse.dropWhile pyIsSpace).reverse

/-- Python `str.strip()`. -/
def pyStrip (s : PyStr) : PyStr := pyStripLeft (pyStripRight s)

/-- Python `str.lower()` (ASCII case mapping). -/
def pyLower (s : PyStr) : PyStr := s.map Char.toLower

/-- Python `str.isalnum()` (ASCII restriction): non-empty and every character
alphanumeric.  Note `"".isalnum()` is `False` in Python. -/
def pyIsAlnum (s : PyStr) : Bool := !s.isEmpty && s.all Char.isAlphanum

/-- Python `str.replace(c, '')`: remove every occurrence of the character. -/
def removeAll (c : Char) (s : PyStr) : PyStr := s.filter (fun x => x ≠ c)

/-- Python `str.split(sep)` for a one-character separator: keeps empty
segments, and `"".split(sep) == [""]`. -/
def pySplit (sep : Char) (s : PyStr) : List PyStr := s.splitOn sep

/-- Python truthiness of an optional string (`None` and `""` are falsy). -/
def pyTruthy : Option PyStr → Bool
  | none => false
  | some s => !s.isEmpty

/-- Python `x or y` on optional strings: `y` when `x` is falsy. -/
def optOr (a b : Option PyStr) : Option PyStr := if pyTruthy a then a else b

/-- Python `s.split(':', 1)` followed by the two-name unpacking
`username, password = ...`: succeeds only when the string contains a colon. -/
def splitFirstColon (s : PyStr) : Option (PyStr × PyStr) :=
  if ':' ∈ s then
    some (s.takeWhile (fun x => x ≠ ':'), (s.dropWhile (fun x => x ≠ ':')).tail)
  else none

/-- Value of a base64-alphabet character. -/
def b64val (c : Char) : Option Nat :=
  if 'A' ≤ c ∧ c ≤ 'Z' then some (c.toNat - 65)
  else if 'a' ≤ c ∧ c ≤ 'z' then some (c.toNat - 71)
  else if '0' ≤ c ∧ c ≤ '9' then some (c.toNat + 4)
  else if c = '+' then some 62
  else if c = '/' then some 63
  else none

/-- Decode groups of 6-bit base64 values into byte values; a final group of
two or three values yields one or two bytes. -/
def decodeB64Vals : List Nat → List Nat
  | a :: b :: c :: d :: rest =>
      (a * 4 + b / 16) :: ((b % 16) * 16 + c / 4) :: ((c % 4) * 64 + d) :: decodeB64Vals rest
  | [a, b] => [a * 4 + b / 16]
  | [a, b, c] => [a * 4 + b / 16, (b % 16) * 16 + c / 4]
  | _ => []

/-- Model of Python `base64.b64decode` in its default non-strict mode:
non-ASCII input fails, characters outside the base64 alphabet before the
first `=` are discarded, and the count of data characters must be 0, 2 or 3
modulo 4, a final partial group being closed by `=` padding.  Returns the
decoded byte values. -/
def b64decode (s : PyStr) : Option (List Nat) :=
  if !s.all (fun c => c.toNat ≤ 127) then none
  else
    let data := (s.takeWhile (fun c => c ≠ '=')).filterMap b64val
    let hasPad := !(s.dropWhile (fun c => c ≠ '=')).isEmpty
    if data.length % 4 = 0 then some (decodeB64Vals data)
    else if data.length % 4 = 1 then none
    else if hasPad then some (decodeB64Vals data) else none

/-- Whether a byte is a UTF-8 continuation byte. -/
def utf8Cont (b : Nat) : Bool := 128 ≤ b ∧ b < 192

/-- Model of `bytes.decode('utf-8')`: strict UTF-8 decoding, rejecting
truncated sequences, stray continuation bytes, overlong encodings,
surrogates and out-of-range code points. -/
def utf8Decode : List Nat → Option PyStr
  | [] => some []
  | b0 :: bs =>
    if b0 < 128 then
      (utf8Decode bs).map (fun cs => Char.ofNat b0 :: cs)
    else if b0 < 194 then none
    else if b0 < 224 then
      match bs with
      | b1 :: bs1 =>
        if utf8Cont b1 then
          (utf8Decode bs1).map (fun cs => Char.ofNat ((b0 - 192) * 64 + (b1 - 128)) :: cs)
        else none
      | [] => none
    else if b0 < 240 then
      match bs with
      | b1 :: b2 :: bs2 =>
        if utf8Cont b1 ∧ utf8Cont b2 then
          let cp := (b0 - 224) * 4096 + (b1 - 128) * 64 + (b2 - 128)
          if cp < 2048 ∨ (55296 ≤ cp ∧ cp ≤ 57343) then none
          else (utf8Decode bs2).map (fun cs => Char.ofNat cp :: cs)
        else none
      | _ => none
    else if b0 < 245 then
      match bs with
      | b1 :: b2 :: b3 :: bs3 =>
        if utf8Cont b1 ∧ utf8Cont b2 ∧ utf8Cont b3 then
          let cp := (b0 - 240) * 262144 + (b1 - 128) * 4096 + (b2 - 128) * 64 + (b3 - 128)
          if cp < 65536 ∨ cp > 1114111 then none
          else (utf8Decode bs3).map (fun cs => Char.ofNat cp :: cs)
        else none
      | _ => none
    else none

/-- The `"Basic "` scheme tag checked by the add handler. -/
def basicTag : PyStr := pstr ("Basic ")

/-- Credential extraction shared by both handlers (lines 119-124 and
262-267 of the source): `auth_header.split(' ')[1]`, base64-decode,
UTF-8-decode, then `creds.split(':', 1)` unpacked into two names.  Any
`IndexError`/`ValueError` on the way yields `none`. -/
def parseCreds (header : PyStr) : Option (PyStr × PyStr) :=
  match (pySplit ' ' header).get? 1 with
  | none => none
  | some enc =>
    match b64decode enc with
    | none => none
    | some bytes =>
      match utf8Decode bytes with
      | none => none
      | some creds => splitFirstColon creds

/-! ## Input validation (source lines 39-58) -/

/-- Error string appended when the entry is empty or whitespace-only. -/
def entryEmptyError : PyStr := pstr ("Entry cannot be empty")

/-- Error string appended when the entry exceeds 500 characters. -/
def entryTooLongError : PyStr := pstr ("Entry too long (max 500 characters)")

/-- Error string for an environment outside the allowed set, with the
allowed values joined in. -/
def environmentAllowedError : PyStr :=
  pstr ("Environment must be one of: ort, int, prod, dev, staging, test")

/-- Error string for an invalid tenant name. -/
def tenantNameError : PyStr :=
  pstr ("Tenant name can only contain letters, numbers, hyphens, and underscores")

/-- The `allowed_envs` list of the source. -/
def allowed_envs : List PyStr :=
  [pstr ("ort"), pstr ("int"), pstr ("prod"), pstr ("dev"), pstr ("staging"), pstr ("test")]

/-- `validate_input(entry, environment, tenant_name)` from the source:
returns the list of validation error strings, in order of appearance. -/
def validate_input (entry environment tenant_name : PyStr) : List PyStr :=
  (if entry.isEmpty ∨ (pyStrip entry).length = 0 then [entryEmptyError]
   else if entry.length > 500 then [entryTooLongError]
   else [])
  ++ (if !environment.isEmpty ∧ pyLower environment ∉ allowed_envs
      then [environmentAllowedError] else [])
  ++ (if !tenant_name.isEmpty ∧ !pyIsAlnum (removeAll '_' (removeAll '-' tenant_name))
      then [tenantNameError] else [])

/-- The default file name `'Whitelist.csv'`. -/
def wcsv : PyStr := pstr ("Whitelist.csv")

/-- Branch derivation used by both handlers (source lines 110 and 253):
`f"jenkins-store-{environment.lower()}"`. -/
def branch_name (environment : PyStr) : PyStr :=
  pstr ("jenkins-store-") ++ pyLower environment

/-! ## Requests -/

/-- The optional fields a JSON request body may carry. -/
structure JsonBody where
  entry : Option PyStr := none
  environment : Option PyStr := none
  tenant : Option PyStr := none
  file : Option PyStr := none
deriving DecidableEq

/-- `request.get_json() or {}`: a missing body behaves as the empty dict. -/
def jsonOf (j : Option JsonBody) : JsonBody := j.getD {}

/-- A request to `POST /whitelist/add`: the relevant query parameters, the
JSON body, and the `Authorization` header. -/
structure AddRequest where
  argsEntry : Option PyStr := none
  argsEnvironment : Option PyStr := none
  argsTenant : Option PyStr := none
  argsFile : Option PyStr := none
  json : Option JsonBody := none
  authorization : Option PyStr := none
deriving DecidableEq

/-- Source lines 64, 73-74: query `environment`, falling back to the JSON
body when the query value is absent or empty. -/
def addEnvironmentParam (req : AddRequest) : Option PyStr :=
  if pyTruthy req.argsEnvironment then req.argsEnvironment
  else (jsonOf req.json).environment

/-- Source lines 65, 75-76: query `tenant`, falling back to the JSON body
when the query value is absent or empty. -/
def addTenantParam (req : AddRequest) : Option PyStr :=
  if pyTruthy req.argsTenant then req.argsTenant else (jsonOf req.json).tenant

/-- Source lines 66, 77-78: `file` from the query with default
`'Whitelist.csv'`; when that value equals the default, the JSON body value
(again defaulting to `'Whitelist.csv'`) replaces it. -/
def addFileParam (req : AddRequest) : PyStr :=
  let file_name := req.argsFile.getD wcsv
  if file_name = wcsv then ((jsonOf req.json).file).getD wcsv else file_name

/-- Source lines 70, 81-82: `entry` from the JSON body, falling back to the
query parameter when the body value is absent or empty. -/
def addEntryParam (req : AddRequest) : Option PyStr :=
  if pyTruthy (jsonOf req.json).entry then (jsonOf req.json).entry
  else req.argsEntry

/-! ## The add handler (source lines 60-229) -/

/-- The remote repository, as a map from `(branch, path)` to file text. -/
def Repo := PyStr × PyStr → Option PyStr

/-- Oracle for the external steps of the Version-Control Mutator: whether
the clone / commit / push subprocesses succeed, whether an unexpected
exception is raised inside the workspace block, and whether the final
cleanup (`shutil.rmtree`) itself fails. -/
structure MutatorWorld where
  cloneOk : Bool
  bodyExn : Bool
  commitOk : Bool
  commitStderr : PyStr
  pushOk : Bool
  pushStderr : PyStr
  cleanupFails : Bool

/-- Observable effects of one `add` request. -/
structure AddEffects where
  workspaceCreated : Bool
  cloneAttempted : Bool
  cleanupRun : Bool
  workspaceRemoved : Bool
  repoAfter : Repo

/-- Effects of a request that never reaches `tempfile.mkdtemp`. -/
def noEffects (repo : Repo) : AddEffects :=
  { workspaceCreated := false, cloneAttempted := false, cleanupRun := false,
    workspaceRemoved := false, repoAfter := repo }

/-- Effects once the workspace exists: the `finally` block always runs, and
the workspace disappears unless the cleanup itself fails. -/
def cleanupEffects (w : MutatorWorld) (repo : Repo) : AddEffects :=
  { workspaceCreated := true, cloneAttempted := true, cleanupRun := true,
    workspaceRemoved := !w.cleanupFails, repoAfter := repo }

/-- Responses of the add handler. -/
inductive AddResult where
  | entryRequired
  | environmentRequired
  | tenantRequired
  | validationFailed (details : List PyStr)
  | authRequired
  | invalidAuthFormat
  | cloneFailed (branch : PyStr)
  | commitFailed (stderr : PyStr)
  | pushFailed (branch : PyStr) (stderr : PyStr)
  | success (entry environment branch tenant folder file file_path commit_message : PyStr)
  | internalError
deriving DecidableEq

/-- The two-line header written when the target file does not exist
(source lines 163-166). -/
def fileHeader (tenant environment : PyStr) : PyStr :=
  pstr ("# Whitelist for ") ++ tenant ++ pstr (" in ") ++ environment
    ++ pstr ("\n# Format: IP,Description,Status\n")

/-- File content after the mutation: the existing content (or the fresh
header) with `entry` plus a newline appended (source lines 163-172). -/
def newFileContent (old : Option PyStr) (tenant environment entry : PyStr) : PyStr :=
  (match old with
   | none => fileHeader tenant environment
   | some s => s) ++ entry ++ pstr ("\n")

/-- The generated commit message (source line 181). -/
def commitMessageFor (tenant environment entry : PyStr) : PyStr :=
  pstr ("Add ") ++ tenant ++ pstr (" whitelist entry in ") ++ environment
    ++ pstr (": ") ++ entry

/-- The clone → mutate → commit → push block inside the `try` (source lines
136-216), given the oracle: returns the response and the repository state
after the request (which changes only when the push succeeds). -/
def runMutator (w : MutatorWorld) (branch tenant_name environment entry file_name : PyStr)
    (repo : Repo) : AddResult × Repo :=
  if !w.cloneOk then (.cloneFailed branch, repo)
  else if w.bodyExn then (.internalError, repo)
  else if !w.commitOk then (.commitFailed w.commitStderr, repo)
  else if !w.pushOk then (.pushFailed branch w.pushStderr, repo)
  else
    let content := newFileContent (repo (branch, file_name)) tenant_name environment entry
    (.success entry environment branch tenant_name tenant_name file_name file_name
       (commitMessageFor tenant_name environment entry),
     fun k => if k = (branch, file_name) then some content else repo k)

/-- The `POST /whitelist/add` handler. -/
def add_whitelist_entry (req : AddRequest) (w : MutatorWorld) (repo : Repo) :
    AddResult × AddEffects :=
  let environment? := addEnvironmentParam req
  let tenant? := addTenantParam req
  let file_name := addFileParam req
  let entry? := addEntryParam req
  if !pyTruthy entry? then (.entryRequired, noEffects repo)
  else if !pyTruthy environment? then (.environmentRequired, noEffects repo)
  else if !pyTruthy tenant? then (.tenantRequired, noEffects repo)
  else
    let entry := entry?.getD []
    let environment := environment?.getD []
    let tenant_name := tenant?.getD []
    if validate_input entry environment tenant_name ≠ [] then
      (.validationFailed (validate_input entry environment tenant_name), noEffects repo)
    else
      match req.authorization with
      | none => (.authRequired, noEffects repo)
      | some auth_header =>
        if !basicTag.isPrefixOf auth_header then (.authRequired, noEffects repo)
        else
          match parseCreds auth_header with
          | none => (.invalidAuthFormat, noEffects repo)
          | some _creds =>
            let rr := runMutator w (branch_name environment) tenant_name environment
                        entry file_name repo
            (rr.1, cleanupEffects w rr.2)

/-! ## The view handler (source lines 231-301) -/

/-- HTTP method of a view request. -/
inductive Method where
  | GET
  | POST
deriving DecidableEq

/-- A request to `/whitelist/view`. -/
structure ViewRequest where
  method : Method := .GET
  argsEnvironment : Option PyStr := none
  argsTenant : Option PyStr := none
  argsFile : Option PyStr := none
  json : Option JsonBody := none
  authorization : Option PyStr := none
deriving DecidableEq

/-- Parameter extraction of the view handler (source lines 236-244). -/
def viewParams (req : ViewRequest) : Option PyStr × Option PyStr × PyStr :=
  match req.method with
  | .GET => (req.argsEnvironment, req.argsTenant, req.argsFile.getD wcsv)
  | .POST =>
    let data := jsonOf req.json
    (optOr req.argsEnvironment data.environment,
     optOr req.argsTenant data.tenant,
     if pyTruthy req.argsFile then req.argsFile.getD wcsv else data.file.getD wcsv)

/-- An upstream raw-content response: a 200 with the file text, or an
error status code. -/
inductive Upstream where
  | ok (text : PyStr)
  | err (status : Nat)
deriving DecidableEq

/-- Responses of the view handler. -/
inductive ViewResult where
  | missingFields
  | authRequired
  | invalidAuth
  | ok (content : PyStr) (lines : List PyStr) (line_count : Nat)
      (environment branch tenant folder file file_path : PyStr)
  | upstreamError (file_path branch : PyStr) (status : Nat)
deriving DecidableEq

/-- Source line 278: `response.text.strip().split('\n') if
response.text.strip() else []`. -/
def viewLines (text : PyStr) : List PyStr :=
  if !(pyStrip text).isEmpty then pySplit '\n' (pyStrip text) else []

/-- The `environment` used by the view handler. -/
def viewEnvironment (req : ViewRequest) : PyStr := (viewParams req).1.getD []

/-- The `tenant_name` used by the view handler. -/
def viewTenant (req : ViewRequest) : PyStr := (viewParams req).2.1.getD []

/-- The `file_name` used by the view handler. -/
def viewFile (req : ViewRequest) : PyStr := (viewParams req).2.2

/-- The view handler's `folder_name`: `f"tenants/{tenant_name}"` (source
line 254). -/
def viewFolder (req : ViewRequest) : PyStr := pstr ("tenants/") ++ viewTenant req

/-- The view handler's `file_path`: `f"{folder_name}/{file_name}"` (source
line 255). -/
def viewPath (req : ViewRequest) : PyStr := viewFolder req ++ pstr ("/") ++ viewFile req

/-- The `(branch, path)` pair at which the view handler queries the
raw-content API (source lines 272-275). -/
def viewKey (req : ViewRequest) : PyStr × PyStr :=
  (branch_name (viewEnvironment req), viewPath req)

/-- The `/whitelist/view` handler.  Besides the response it returns the
`(branch, path)` key of the upstream read, or `none` when no upstream
request was issued. -/
def view_whitelist (req : ViewRequest) (upstream : PyStr × PyStr → Upstream) :
    ViewResult × Option (PyStr × PyStr) :=
  if !(pyTruthy (viewParams req).1 && pyTruthy (viewParams req).2.1) then
    (.missingFields, none)
  else
    match req.authorization with
    | none => (.authRequired, none)
    | some auth_header =>
      match parseCreds auth_header with
      | none => (.invalidAuth, none)
      | some _creds =>
        match upstream (viewKey req) with
        | .ok text =>
          (.ok text (viewLines text) (viewLines text).length (viewEnvironment req)
             (branch_name (viewEnvironment req)) (viewTenant req) (viewFolder req)
             (viewFile req) (viewPath req),
           some (viewKey req))
        | .err code =>
          (.upstreamError (viewPath req) (branch_name (viewEnvironment req)) code,
           some (viewKey req))

/-- Serve the raw-content API from a repository state: a present file is a
200 with its text, an absent one a 404. -/
def repoUpstream (repo : Repo) : PyStr × PyStr → Upstream :=
  fun k => match repo k with
  | some text => .ok text
  | none => .err 404

/-- The path at which the view handler looks for a tenant's file. -/
def tenantsPath (tenant file : PyStr) : PyStr :=
  pstr ("tenants/") ++ tenant ++ pstr ("/") ++ file

/-! ## Helper lemmas about the string primitives -/

lemma pySplit_eq_splitOnP (sep : Char) (s : PyStr) :
    pySplit sep s = s.splitOnP (fun x => x == sep) := rfl

lemma getLast?_cons_ne {α : Type} (a : α) (l : List α) (h : l ≠ []) :
    (a :: l).getLast? = l.getLast? := by
  cases l with
  | nil => exact absurd rfl h
  | cons b t => exact List.getLast?_cons_cons

lemma splitNl_no_sep (e : PyStr) (h : '\n' ∉ e) : pySplit '\n' e = [e] := by
  rw [pySplit_eq_splitOnP]
  exact List.splitOnP_eq_single _ _ (fun x hx hb => h (beq_iff_eq.mp hb ▸ hx))

lemma splitNl_length2 (s : PyStr) (h : '\n' ∈ s) :
    2 ≤ (s.splitOnP (fun x => x == '\n')).length := by
  induction s with
  | nil => cases h
  | cons c t ih =>
    rw [List.splitOnP_cons]
    by_cases hc : (c == '\n') = true
    · rw [if_pos hc, List.length_cons]
      have h1 : t.splitOnP (fun x => x == '\n') ≠ [] := List.splitOnP_ne_nil _ t
      have h2 : 0 < (t.splitOnP (fun x => x == '\n')).length := List.length_pos.mpr h1
      omega
    · rw [if_neg hc, List.length_modifyHead]
      apply ih
      rcases List.mem_cons.mp h with h' | h'
      · exact absurd (beq_iff_eq.mpr h'.symm) hc
      · exact h'

lemma splitNl_last (xs e : PyStr) (h : '\n' ∉ e) :
    (pySplit '\n' (xs ++ '\n' :: e)).getLast? = some e := by
  rw [pySplit_eq_splitOnP]
  induction xs with
  | nil =>
    rw [List.nil_append, List.splitOnP_cons, if_pos (beq_iff_eq.mpr rfl)]
    have h1 : e.splitOnP (fun x => x == '\n') = [e] := by
      rw [← pySplit_eq_splitOnP]; exact splitNl_no_sep e h
    rw [h1, getLast?_cons_ne _ _ (by simp)]
    rfl
  | cons c t ih =>
    rw [List.cons_append, List.splitOnP_cons]
    by_cases hc : (c == '\n') = true
    · rw [if_pos hc]
      rw [getLast?_cons_ne _ _ (List.splitOnP_ne_nil _ _)]
      exact ih
    · rw [if_neg hc]
      have hmem : '\n' ∈ t ++ '\n' :: e := List.mem_append.mpr (Or.inr (List.mem_cons_self _ _))
      have hlen := splitNl_length2 (t ++ '\n' :: e) hmem
      rcases h2 : (t ++ '\n' :: e).splitOnP (fun x => x == '\n') with _ | ⟨a, _ | ⟨b, l⟩⟩
      · exact absurd h2 (List.splitOnP_ne_nil _ _)
      · rw [h2] at hlen; simp at hlen
      · rw [h2] at ih
        rw [List.modifyHead]
        rw [List.getLast?_cons_cons] at ih ⊢
        exact ih

lemma dropWhile_append_of_nil {p : Char → Bool} {a : PyStr} (b : PyStr)
    (h : a.dropWhile p = []) : (a ++ b).dropWhile p = b.dropWhile p := by
  induction a with
  | nil => rfl
  | cons c t ih =>
    simp only [List.dropWhile_cons] at h
    simp only [List.cons_append, List.dropWhile_cons]
    by_cases hc : p c = true
    · simp only [if_pos hc] at h ⊢
      exact ih h
    · simp only [if_neg hc] at h
      exact absurd h (by simp)

lemma dropWhile_append_of_ne_nil {p : Char → Bool} {a : PyStr} (b : PyStr)
    (h : a.dropWhile p ≠ []) : (a ++ b).dropWhile p = a.dropWhile p ++ b := by
  induction a with
  | nil => exact absurd rfl h
  | cons c t ih =>
    simp only [List.dropWhile_cons] at h
    simp only [List.cons_append, List.dropWhile_cons]
    by_cases hc : p c = true
    · simp only [if_pos hc] at h ⊢
      exact ih h
    · simp only [if_neg hc] at h ⊢
      rw [List.cons_append]

lemma pyIsSpace_nl : pyIsSpace '\n' = true := by decide

lemma pyStripRight_concat_nl (x : PyStr) (hx : x ≠ [])
    (hlast : pyIsSpace (x.getLastD 'a') = false) :
    pyStripRight (x ++ pstr ("\n")) = x := by
  rcases List.eq_nil_or_concat x with h0 | ⟨ys, y, h0⟩
  · exact absurd h0 hx
  · subst h0
    rw [List.concat_eq_append] at hlast ⊢
    have hylast : (ys ++ [y]).getLastD 'a' = y := by
      rw [List.getLastD_eq_getLast?, List.getLast?_concat]
      rfl
    rw [hylast] at hlast
    unfold pyStripRight
    have hps : pstr ("\n") = ['\n'] := rfl
    rw [hps]
    have h2 : ((ys ++ [y]) ++ ['\n']).reverse = '\n' :: (y :: ys.reverse) := by simp
    rw [h2, List.dropWhile_cons, if_pos pyIsSpace_nl, List.dropWhile_cons,
      if_neg (by simp [hlast])]
    simp

lemma pyStrip_eq_nil_iff (s : PyStr) : pyStrip s = [] ↔ s.all pyIsSpace := by
  unfold pyStrip pyStripLeft pyStripRight
  constructor
  · intro h
    have hdrop : (s.reverse.dropWhile pyIsSpace).reverse.dropWhile pyIsSpace = [] := h
    have h1 : ∀ x ∈ (s.reverse.dropWhile pyIsSpace).reverse, pyIsSpace x = true :=
      List.dropWhile_eq_nil_iff.mp hdrop
    rw [List.all_eq_true]
    intro c hc
    have hsplit : s.reverse.takeWhile pyIsSpace ++ s.reverse.dropWhile pyIsSpace = s.reverse :=
      List.takeWhile_append_dropWhile _ _
    have hc' : c ∈ s.reverse := List.mem_reverse.mpr hc
    rw [← hsplit] at hc'
    rcases List.mem_append.mp hc' with h' | h'
    · exact List.mem_takeWhile_imp h'
    · exact h1 c (List.mem_reverse.mpr h')
  · intro h
    rw [List.all_eq_true] at h
    have h2 : s.reverse.dropWhile pyIsSpace = [] :=
      List.dropWhile_eq_nil_iff.mpr (fun x hx => h x (List.mem_reverse.mp hx))
    rw [h2]
    rfl

lemma getLast?_viewLines_append (base entry : PyStr)
    (hb : base = [] ∨ base.getLast? = some '\n')
    (hnl : '\n' ∉ entry) (hne : entry ≠ [])
    (hhead : pyIsSpace (entry.headD 'a') = false)
    (hlast : pyIsSpace (entry.getLastD 'a') = false) :
    (viewLines ((base ++ entry) ++ pstr ("\n"))).getLast? = some entry := by
  have hbe : base ++ entry ≠ [] := by
    intro h
    exact hne (List.append_eq_nil.mp h).2
  have hbelast : (base ++ entry).getLastD 'a' = entry.getLastD 'a' := by
    rw [List.getLastD_eq_getLast?, List.getLastD_eq_getLast?,
      List.getLast?_append_of_ne_nil base hne]
  have hsr : pyStripRight ((base ++ entry) ++ pstr ("\n")) = base ++ entry :=
    pyStripRight_concat_nl (base ++ entry) hbe (by rw [hbelast]; exact hlast)
  have hstrip : pyStrip ((base ++ entry) ++ pstr ("\n")) = pyStripLeft (base ++ entry) := by
    unfold pyStrip
    rw [hsr]
  obtain ⟨c, t, rfl⟩ : ∃ c t, entry = c :: t := by
    cases entry with
    | nil => exact absurd rfl hne
    | cons c t => exact ⟨c, t, rfl⟩
  have hheadc : pyIsSpace c = false := hhead
  have hdropentry : List.dropWhile pyIsSpace (c :: t) = c :: t := by
    rw [List.dropWhile_cons, if_neg (by simp [hheadc])]
  by_cases hnil : base.dropWhile pyIsSpace = []
  · have h1 : pyStripLeft (base ++ c :: t) = c :: t := by
      unfold pyStripLeft
      rw [dropWhile_append_of_nil _ hnil, hdropentry]
    unfold viewLines
    rw [hstrip, h1]
    rw [if_pos (by simp)]
    rw [splitNl_no_sep _ hnl]
    rfl
  · have h1 : pyStripLeft (base ++ c :: t) = base.dropWhile pyIsSpace ++ c :: t := by
      unfold pyStripLeft
      exact dropWhile_append_of_ne_nil _ hnil
    have hbase : base ≠ [] := by
      intro h
      rw [h] at hnil
      exact hnil rfl
    have hbl : base.getLast? = some '\n' := hb.resolve_left hbase
    have hdl : (base.dropWhile pyIsSpace).getLast? = some '\n' := by
      have hsplit : base.takeWhile pyIsSpace ++ base.dropWhile pyIsSpace = base :=
        List.takeWhile_append_dropWhile _ _
      rw [← List.getLast?_append_of_ne_nil (base.takeWhile pyIsSpace) hnil, hsplit]
      exact hbl
    obtain ⟨d, rfl'⟩ : ∃ d, base.dropWhile pyIsSpace = d ++ ['\n'] := by
      rcases List.eq_nil_or_concat (base.dropWhile pyIsSpace) with h' | ⟨L, b, h'⟩
      · exact absurd h' hnil
      · rw [List.concat_eq_append] at h'
        refine ⟨L, ?_⟩
        rw [h'] at hdl ⊢
        rw [List.getLast?_concat] at hdl
        rw [Option.some_inj.mp hdl]
    unfold viewLines
    rw [hstrip, h1, rfl']
    rw [List.append_assoc, List.singleton_append]
    rw [if_pos (by simp)]
    rw [splitNl_last d (c :: t) hnl]

/-! ## Helper lemmas about `validate_input` -/

lemma not_mem_if_singleton {a b : PyStr} {c : Prop} [Decidable c] (h : a ≠ b) :
    a ∉ (if c then [b] else []) := by
  split
  · simp [h]
  · simp

lemma not_mem_entry_part {a : PyStr} (h1 : a ≠ entryEmptyError) (h2 : a ≠ entryTooLongError)
    (e : PyStr) :
    a ∉ (if e.isEmpty ∨ (pyStrip e).length = 0 then [entryEmptyError]
         else if e.length > 500 then [entryTooLongError] else []) := by
  split
  · simp [h1]
  · split
    · simp [h2]
    · simp

lemma entryEmpty_mem_validate (e env t : PyStr) :
    entryEmptyError ∈ validate_input e env t ↔ (e.isEmpty ∨ (pyStrip e).length = 0) := by
  unfold validate_input
  rw [List.mem_append, List.mem_append]
  constructor
  · rintro ((h | h) | h)
    · revert h
      split
      · intro _
        assumption
      · split
        · simp [(by decide : entryEmptyError ≠ entryTooLongError)]
        · simp
    · exact absurd h (not_mem_if_singleton (by decide))
    · exact absurd h (not_mem_if_singleton (by decide))
  · intro hc
    refine Or.inl (Or.inl ?_)
    rw [if_pos hc]
    exact List.mem_singleton_self _

lemma entryTooLong_mem_validate (e env t : PyStr) :
    entryTooLongError ∈ validate_input e env t ↔
      (¬(e.isEmpty ∨ (pyStrip e).length = 0) ∧ e.length > 500) := by
  unfold validate_input
  rw [List.mem_append, List.mem_append]
  constructor
  · rintro ((h | h) | h)
    · revert h
      split
      · simp [(by decide : entryTooLongError ≠ entryEmptyError)]
      · split
        · intro _
          constructor <;> assumption
        · simp
    · exact absurd h (not_mem_if_singleton (by decide))
    · exact absurd h (not_mem_if_singleton (by decide))
  · rintro ⟨hc1, hc2⟩
    refine Or.inl (Or.inl ?_)
    rw [if_neg hc1, if_pos hc2]
    exact List.mem_singleton_self _

lemma envError_mem_validate (e env t : PyStr) :
    environmentAllowedError ∈ validate_input e env t ↔
      (!env.isEmpty ∧ pyLower env ∉ allowed_envs) := by
  unfold validate_input
  rw [List.mem_append, List.mem_append]
  constructor
  · rintro ((h | h) | h)
    · exact absurd h (not_mem_entry_part (by decide) (by decide) e)
    · revert h
      split
      · intro _
        assumption
      · simp
    · exact absurd h (not_mem_if_singleton (by decide))
  · intro hc
    refine Or.inl (Or.inr ?_)
    rw [if_pos hc]
    exact List.mem_singleton_self _

lemma tenantError_mem_validate (e env t : PyStr) :
    tenantNameError ∈ validate_input e env t ↔
      (!t.isEmpty ∧ !pyIsAlnum (removeAll '_' (removeAll '-' t))) := by
  unfold validate_input
  rw [List.mem_append, List.mem_append]
  constructor
  · rintro ((h | h) | h)
    · exact absurd h (not_mem_entry_part (by decide) (by decide) e)
    · exact absurd h (not_mem_if_singleton (by decide))
    · revert h
      split
      · intro _
        assumption
      · simp
  · intro hc
    refine Or.inr ?_
    rw [if_pos hc]
    exact List.mem_singleton_self _

lemma char_isAlphanum_ne_dash {c : Char} (h : c.isAlphanum = true) : c ≠ '-' := by
  intro h'
  subst h'
  exact absurd h (by decide)

lemma char_isAlphanum_ne_underscore {c : Char} (h : c.isAlphanum = true) : c ≠ '_' := by
  intro h'
  subst h'
  exact absurd h (by decide)

lemma pyIsAlnum_filtered_iff (t : PyStr) :
    pyIsAlnum (removeAll '_' (removeAll '-' t)) = true ↔
      (t.any Char.isAlphanum ∧ ∀ c ∈ t, c.isAlphanum ∨ c = '-' ∨ c = '_') := by
  unfold pyIsAlnum removeAll
  rw [Bool.and_eq_true, Bool.not_eq_true', List.isEmpty_eq_false_iff_exists_mem, List.all_eq_true]
  constructor
  · rintro ⟨⟨c, hc⟩, hall⟩
    have hct : c ∈ t := by
      have h1 := (List.mem_filter.mp hc).1
      exact (List.mem_filter.mp h1).1
    have hcal : c.isAlphanum = true := hall c hc
    constructor
    · rw [List.any_eq_true]
      exact ⟨c, hct, hcal⟩
    · intro d hd
      by_cases hd1 : d = '-'
      · exact Or.inr (Or.inl hd1)
      · by_cases hd2 : d = '_'
        · exact Or.inr (Or.inr hd2)
        · refine Or.inl (hall d ?_)
          refine List.mem_filter.mpr ⟨List.mem_filter.mpr ⟨hd, ?_⟩, ?_⟩
          · simp [hd1]
          · simp [hd2]
  · rintro ⟨hany, hgood⟩
    obtain ⟨c, hct, hcal⟩ := List.any_eq_true.mp hany
    constructor
    · refine ⟨c, ?_⟩
      refine List.mem_filter.mpr ⟨List.mem_filter.mpr ⟨hct, ?_⟩, ?_⟩
      · simp only [decide_eq_true_eq]
        exact char_isAlphanum_ne_dash hcal
      · simp only [decide_eq_true_eq]
        exact char_isAlphanum_ne_underscore hcal
    · intro d hd
      have hd2 := (List.mem_filter.mp hd).2
      have h1 := List.mem_filter.mp (List.mem_filter.mp hd).1
      rcases hgood d h1.1 with h | h | h
      · exact h
      · exact absurd h (by simpa using h1.2)
      · exact absurd h (by simpa using hd2)

/-! ## Claims about validation (C2, C8, C9) -/

/-- C2 counterexample: the tenant `"-"` consists solely of hyphens, so the
claim says it passes, but `validate_input` rejects it: after stripping
hyphens and underscores the remainder is the empty string, and Python's
`"".isalnum()` is `False`. -/
theorem C2_counterexample :
    validate_input (pstr ("1.2.3.4")) (pstr ("ort")) (pstr ("-")) = [tenantNameError] := by
  decide

/-- C2 (amended): `validate_input` produces the tenant error exactly for the
non-empty tenant strings that either contain a character other than an
alphanumeric, a hyphen or an underscore, or contain no alphanumeric
character at all.  In particular a tenant consisting solely of hyphens
and/or underscores is rejected, not accepted. -/
theorem C2_tenant_validation_amended (entry environment tenant : PyStr) :
    tenantNameError ∈ validate_input entry environment tenant ↔
      (tenant ≠ [] ∧
        (tenant.any (fun c => !(c.isAlphanum || c == '-' || c == '_')) ∨
         ¬ tenant.any Char.isAlphanum)) := by
  rw [tenantError_mem_validate]
  have hbad : (tenant.any (fun c => !(c.isAlphanum || c == '-' || c == '_')) = true) ↔
      ¬ (∀ c ∈ tenant, c.isAlphanum ∨ c = '-' ∨ c = '_') := by
    rw [List.any_eq_true]
    constructor
    · rintro ⟨c, hc, hbc⟩ hall
      rcases hall c hc with h | h | h
      · simp [h] at hbc
      · simp [h] at hbc
      · simp [h] at hbc
    · intro hall
      push_neg at hall
      obtain ⟨c, hc, h1, h2, h3⟩ := hall
      refine ⟨c, hc, ?_⟩
      simp only [Bool.not_eq_true', Bool.or_eq_false_iff]
      refine ⟨⟨by simpa using h1, ?_⟩, ?_⟩
      · simp [h2]
      · simp [h3]
  constructor
  · rintro ⟨h1, h2⟩
    have ht : tenant ≠ [] := by simpa using h1
    refine ⟨ht, ?_⟩
    have h3 : ¬ (pyIsAlnum (removeAll '_' (removeAll '-' tenant)) = true) := by
      simp only [Bool.not_eq_true'] at h2
      simp [h2]
    rw [pyIsAlnum_filtered_iff] at h3
    by_cases hA : tenant.any Char.isAlphanum = true
    · refine Or.inl (hbad.mpr ?_)
      intro hall
      exact h3 ⟨hA, hall⟩
    · exact Or.inr hA
  · rintro ⟨ht, hd⟩
    refine ⟨by simpa using ht, ?_⟩
    have h3 : ¬ (pyIsAlnum (removeAll '_' (removeAll '-' tenant)) = true) := by
      rw [pyIsAlnum_filtered_iff]
      rintro ⟨hA, hall⟩
      rcases hd with hb | hb
      · exact hbad.mp hb hall
      · exact hb hA
    rcases Bool.eq_false_or_eq_true (pyIsAlnum (removeAll '_' (removeAll '-' tenant))) with hx | hx
    · exact absurd hx h3
    · simp [hx]

/-- C2 witness: a tenant of underscores only is rejected, via the amended
theorem applied at a concrete input. -/
theorem C2_tenant_validation_amended_witness :
    tenantNameError ∈ validate_input (pstr ("ok")) (pstr ("ort")) (pstr ("___")) :=
  (C2_tenant_validation_amended (pstr ("ok")) (pstr ("ort")) (pstr ("___"))).mpr
    ⟨by decide, by decide⟩

/-- C9: `validate_input` produces an entry error exactly when the entry is
empty, whitespace-only, or longer than 500 characters; every entry of
length 1..500 with at least one non-whitespace character passes the entry
checks. -/
theorem C9_entry_validation (entry environment tenant : PyStr) :
    ((entryEmptyError ∈ validate_input entry environment tenant ∨
      entryTooLongError ∈ validate_input entry environment tenant) ↔
      (entry = [] ∨ entry.all pyIsSpace ∨ 500 < entry.length)) ∧
    (1 ≤ entry.length → entry.length ≤ 500 → (∃ c ∈ entry, ¬ pyIsSpace c) →
      entryEmptyError ∉ validate_input entry environment tenant ∧
      entryTooLongError ∉ validate_input entry environment tenant) := by
  have hc1 : (entry.isEmpty ∨ (pyStrip entry).length = 0) ↔
      (entry = [] ∨ entry.all pyIsSpace) := by
    rw [List.isEmpty_iff, List.length_eq_zero, pyStrip_eq_nil_iff]
  constructor
  · rw [entryEmpty_mem_validate, entryTooLong_mem_validate, hc1]
    constructor
    · rintro (h | ⟨h1, h2⟩)
      · rcases h with h | h
        · exact Or.inl h
        · exact Or.inr (Or.inl h)
      · exact Or.inr (Or.inr h2)
    · rintro (h | h | h)
      · exact Or.inl (Or.inl h)
      · exact Or.inl (Or.inr h)
      · by_cases hd : (entry = [] ∨ entry.all pyIsSpace = true)
        · exact Or.inl hd
        · exact Or.inr ⟨hd, h⟩
  · rintro hlen1 hlen2 ⟨c, hc, hcs⟩
    constructor
    · rw [entryEmpty_mem_validate, hc1]
      rintro (h | h)
      · rw [h] at hc
        cases hc
      · exact hcs (List.all_eq_true.mp h c hc)
    · rw [entryTooLong_mem_validate]
      rintro ⟨h1, h2⟩
      omega

/-- C9 witness: a concrete valid entry passes both entry checks, via the
theorem applied at a concrete input. -/
theorem C9_entry_validation_witness :
    entryEmptyError ∉ validate_input (pstr ("1.2.3.4")) (pstr ("ort")) (pstr ("acme")) ∧
    entryTooLongError ∉ validate_input (pstr ("1.2.3.4")) (pstr ("ort")) (pstr ("acme")) :=
  (C9_entry_validation (pstr ("1.2.3.4")) (pstr ("ort")) (pstr ("acme"))).2 (by decide) (by decide)
    ⟨'1', by decide, by decide⟩

/-- C8: an environment that case-insensitively matches the allowed set
yields no environment error and the branch name `jenkins-store-` followed
by the lowercased environment (the same `branch_name` is used by both the
add and the view handler); any other non-empty environment fails
validation. -/
theorem C8_environment_branch (entry environment tenant : PyStr) (h : environment ≠ []) :
    (pyLower environment ∈ allowed_envs →
       environmentAllowedError ∉ validate_input entry environment tenant ∧
       branch_name environment = pstr ("jenkins-store-") ++ pyLower environment) ∧
    (pyLower environment ∉ allowed_envs →
       environmentAllowedError ∈ validate_input entry environment tenant) := by
  constructor
  · intro hin
    constructor
    · rw [envError_mem_validate]
      rintro ⟨h1, h2⟩
      exact h2 hin
    · rfl
  · intro hout
    rw [envError_mem_validate]
    exact ⟨by simpa using h, hout⟩

/-- C8 witness: a mixed-case allowed environment passes and derives its
branch, a bogus one is rejected, via the theorem at concrete inputs. -/
theorem C8_environment_branch_witness :
    (environmentAllowedError ∉ validate_input (pstr ("1.2.3.4")) (pstr ("ORT")) (pstr ("acme")) ∧
     branch_name (pstr ("ORT")) = pstr ("jenkins-store-") ++ pyLower (pstr ("ORT"))) ∧
    environmentAllowedError ∈ validate_input (pstr ("1.2.3.4")) (pstr ("bogus")) (pstr ("acme")) :=
  ⟨(C8_environment_branch (pstr ("1.2.3.4")) (pstr ("ORT")) (pstr ("acme")) (by decide)).1
      (by decide),
   (C8_environment_branch (pstr ("1.2.3.4")) (pstr ("bogus")) (pstr ("acme")) (by decide)).2
      (by decide)⟩

/-! ## Claims about the add handler (C3, C10, C7, C6) -/

/-- A mutator world in which every external step succeeds. -/
def allOkWorld : MutatorWorld :=
  { cloneOk := true, bodyExn := false, commitOk := true, commitStderr := [],
    pushOk := true, pushStderr := [], cleanupFails := false }

/-- The empty remote repository. -/
def emptyRepo : Repo := fun _ => none

/-- An add request supplying `entry` both as a query parameter and in the
JSON body, with valid Basic credentials (`user:pass`). -/
def reqC3 : AddRequest :=
  { argsEntry := some (pstr ("10.0.0.1")), argsEnvironment := some (pstr ("ort")),
    argsTenant := some (pstr ("acme")), argsFile := none,
    json := some { entry := some (pstr ("9.9.9.9")) },
    authorization := some (pstr ("Basic dXNlcjpwYXNz")) }

/-- C3 counterexample: `entry` is supplied both as a query parameter
(`10.0.0.1`) and in the JSON body (`9.9.9.9`); the claim says the query
value wins, but the handler reads the JSON body first and only falls back
to the query, so the successful response records the body's entry. -/
theorem C3_counterexample :
    reqC3.argsEntry = some (pstr ("10.0.0.1")) ∧
    (jsonOf reqC3.json).entry = some (pstr ("9.9.9.9")) ∧
    (add_whitelist_entry reqC3 allOkWorld emptyRepo).1 =
      AddResult.success (pstr ("9.9.9.9")) (pstr ("ort")) (pstr ("jenkins-store-ort"))
        (pstr ("acme")) (pstr ("acme")) (pstr ("Whitelist.csv")) (pstr ("Whitelist.csv"))
        (pstr ("Add acme whitelist entry in ort: 9.9.9.9")) := by
  decide

/-- C3 (amended): on `POST /whitelist/add`, `environment` and `tenant`
follow query-over-body precedence (a non-empty query value wins, the body
value is used when the query value is absent); for `entry` the precedence
is reversed (a non-empty JSON-body value wins, the query value is used when
the body has none); for `file` the query value wins only when it differs
from the default `Whitelist.csv`, an absent query value or one equal to the
default deferring to the body value. -/
theorem C3_param_precedence_amended (req : AddRequest) :
    (∀ v, req.argsEnvironment = some v → v ≠ [] → addEnvironmentParam req = some v) ∧
    (req.argsEnvironment = none → addEnvironmentParam req = (jsonOf req.json).environment) ∧
    (∀ v, req.argsTenant = some v → v ≠ [] → addTenantParam req = some v) ∧
    (req.argsTenant = none → addTenantParam req = (jsonOf req.json).tenant) ∧
    (∀ v, (jsonOf req.json).entry = some v → v ≠ [] → addEntryParam req = some v) ∧
    ((jsonOf req.json).entry = none → addEntryParam req = req.argsEntry) ∧
    (∀ v, req.argsFile = some v → v ≠ wcsv → addFileParam req = v) ∧
    ((req.argsFile = none ∨ req.argsFile = some wcsv) →
       addFileParam req = ((jsonOf req.json).file).getD wcsv) := by
  refine ⟨?_, ?_, ?_, ?_, ?_, ?_, ?_, ?_⟩
  · intro v hv hne
    unfold addEnvironmentParam
    rw [hv]
    rw [if_pos (by simp [pyTruthy, hne])]
  · intro hv
    unfold addEnvironmentParam
    rw [hv]
    rfl
  · intro v hv hne
    unfold addTenantParam
    rw [hv]
    rw [if_pos (by simp [pyTruthy, hne])]
  · intro hv
    unfold addTenantParam
    rw [hv]
    rfl
  · intro v hv hne
    unfold addEntryParam
    rw [hv]
    rw [if_pos (by simp [pyTruthy, hne])]
  · intro hv
    unfold addEntryParam
    rw [hv]
    rfl
  · intro v hv hne
    unfold addFileParam
    rw [hv]
    simp only [Option.getD_some]
    rw [if_neg hne]
  · intro hv
    unfold addFileParam
    rcases hv with hv | hv <;> rw [hv] <;> simp

/-- C3 witness: the amended precedence rules applied at a concrete request
where every channel is populated. -/
theorem C3_param_precedence_amended_witness :
    addEnvironmentParam reqC3 = some (pstr ("ort")) ∧
    addEntryParam reqC3 = some (pstr ("9.9.9.9")) ∧
    addFileParam reqC3 = wcsv :=
  ⟨(C3_param_precedence_amended reqC3).1 (pstr ("ort")) rfl (by decide),
   (C3_param_precedence_amended reqC3).2.2.2.2.1 (pstr ("9.9.9.9")) rfl (by decide),
   (C3_param_precedence_amended reqC3).2.2.2.2.2.2.2 (Or.inl rfl)⟩

/-- An add request supplying `file=Whitelist.csv` in the query and a
different file name in the JSON body. -/
def reqC10 : AddRequest :=
  { argsEntry := some (pstr ("1.2.3.4")), argsEnvironment := some (pstr ("ort")),
    argsTenant := some (pstr ("acme")), argsFile := some wcsv,
    json := some { file := some (pstr ("Custom.csv")) },
    authorization := some (pstr ("Basic dXNlcjpwYXNz")) }

/-- C10: a `file` query parameter explicitly set to the default
`Whitelist.csv` is indistinguishable from an absent `file` query parameter
(the whole handler behaves identically), so a JSON-body file name overrides
it, as the concrete request shows. -/
theorem C10_default_file_query :
    (∀ (req : AddRequest) (w : MutatorWorld) (repo : Repo),
        add_whitelist_entry { req with argsFile := some wcsv } w repo =
        add_whitelist_entry { req with argsFile := none } w repo) ∧
    reqC10.argsFile = some wcsv ∧
    (jsonOf reqC10.json).file = some (pstr ("Custom.csv")) ∧
    addFileParam reqC10 = pstr ("Custom.csv") := by
  refine ⟨fun req w repo => rfl, rfl, rfl, by decide⟩

/-- C7: an add request with valid fields but no Authorization header gets
401 and the Version-Control Mutator is never reached: no scratch workspace
is created and no clone is attempted. -/
theorem C7_missing_auth (req : AddRequest) (w : MutatorWorld) (repo : Repo)
    (he : pyTruthy (addEntryParam req) = true)
    (hv : pyTruthy (addEnvironmentParam req) = true)
    (ht : pyTruthy (addTenantParam req) = true)
    (hval : validate_input ((addEntryParam req).getD []) ((addEnvironmentParam req).getD [])
              ((addTenantParam req).getD []) = [])
    (ha : req.authorization = none) :
    (add_whitelist_entry req w repo).1 = AddResult.authRequired ∧
    (add_whitelist_entry req w repo).2.workspaceCreated = false ∧
    (add_whitelist_entry req w repo).2.cloneAttempted = false := by
  have hres : add_whitelist_entry req w repo = (AddResult.authRequired, noEffects repo) := by
    simp [add_whitelist_entry, he, hv, ht, hval, ha]
  rw [hres]
  exact ⟨rfl, rfl, rfl⟩

/-- C7 witness: the theorem applied at a concrete request with no
Authorization header. -/
theorem C7_missing_auth_witness :
    (add_whitelist_entry
        { argsEntry := some (pstr ("1.2.3.4")), argsEnvironment := some (pstr ("ort")),
          argsTenant := some (pstr ("acme")), argsFile := none, json := none,
          authorization := none } allOkWorld emptyRepo).1 = AddResult.authRequired ∧
    (add_whitelist_entry
        { argsEntry := some (pstr ("1.2.3.4")), argsEnvironment := some (pstr ("ort")),
          argsTenant := some (pstr ("acme")), argsFile := none, json := none,
          authorization := none } allOkWorld emptyRepo).2.workspaceCreated = false ∧
    (add_whitelist_entry
        { argsEntry := some (pstr ("1.2.3.4")), argsEnvironment := some (pstr ("ort")),
          argsTenant := some (pstr ("acme")), argsFile := none, json := none,
          authorization := none } allOkWorld emptyRepo).2.cloneAttempted = false :=
  C7_missing_auth _ _ _ (by decide) (by decide) (by decide) (by decide) rfl

lemma add_result_cleanup_indep (req : AddRequest) (w : MutatorWorld) (repo : Repo) (b : Bool) :
    (add_whitelist_entry req { w with cleanupFails := b } repo).1 =
    (add_whitelist_entry req w repo).1 := by
  have hrm : runMutator { w with cleanupFails := b } = runMutator w := by
    funext br tn ev en fn rp
    rfl
  simp only [add_whitelist_entry, hrm]
  repeat' first
    | rfl
    | split

/-- C6: whenever the scratch workspace is created, the cleanup step runs on
every exit path (success, clone/commit/push failure, or unexpected
exception), the workspace is removed whenever the cleanup itself does not
fail, and the cleanup's own failure never changes the response returned to
the caller. -/
theorem C6_cleanup (req : AddRequest) (w : MutatorWorld) (repo : Repo)
    (h : (add_whitelist_entry req w repo).2.workspaceCreated = true) :
    (add_whitelist_entry req w repo).2.cleanupRun = true ∧
    (w.cleanupFails = false → (add_whitelist_entry req w repo).2.workspaceRemoved = true) ∧
    (∀ b, (add_whitelist_entry req { w with cleanupFails := b } repo).1 =
          (add_whitelist_entry req w repo).1) := by
  have key : (add_whitelist_entry req w repo).2 = noEffects repo ∨
      ∃ r, (add_whitelist_entry req w repo).2 = cleanupEffects w r := by
    simp only [add_whitelist_entry]
    repeat' first
      | exact Or.inl rfl
      | exact Or.inr ⟨_, rfl⟩
      | split
  rcases key with hk | ⟨r, hk⟩
  · rw [hk] at h
    cases h
  · rw [hk]
    refine ⟨rfl, ?_, fun b => add_result_cleanup_indep req w repo b⟩
    intro hc
    simp [cleanupEffects, hc]

/-- C6 witness: the theorem applied at a request reaching the mutator whose
clone fails, in a world where cleanup succeeds. -/
theorem C6_cleanup_witness :
    (add_whitelist_entry reqC3
        { allOkWorld with cloneOk := false } emptyRepo).2.cleanupRun = true :=
  (C6_cleanup reqC3 { allOkWorld with cloneOk := false } emptyRepo (by decide)).1

/-! ## Claims about the view handler (C4, C5) -/

/-- A GET view request with valid Basic credentials (`user:pass`). -/
def viewReqOkAuth : ViewRequest :=
  { method := .GET, argsEnvironment := some (pstr ("ort")), argsTenant := some (pstr ("acme")),
    argsFile := none, json := none, authorization := some (pstr ("Basic dXNlcjpwYXNz")) }

/-- C4 counterexample: with upstream 200 text containing an interior blank
line, the handler's `lines` sequence contains an empty element, so not
every element is non-empty. -/
theorem C4_counterexample :
    (view_whitelist viewReqOkAuth (fun _ => Upstream.ok (pstr ("a\n\nb")))).1 =
      ViewResult.ok (pstr ("a\n\nb")) [pstr ("a"), [], pstr ("b")] 3 (pstr ("ort"))
        (pstr ("jenkins-store-ort")) (pstr ("acme")) (pstr ("tenants/acme")) wcsv
        (pstr ("tenants/acme/Whitelist.csv")) ∧
    [] ∈ [pstr ("a"), [], pstr ("b")] := by
  decide

/-- C4 (amended): on an upstream 200, the view handler returns the raw
text verbatim as `content`, `lines` equal to the whitespace-stripped text
split on newline (the empty sequence when the stripped text is empty, and
possibly containing empty elements when the text has consecutive interior
newlines), and `line_count` always equal to the length of `lines`. -/
theorem C4_view_lines_amended (req : ViewRequest) (up : PyStr × PyStr → Upstream)
    (content : PyStr) (lines : List PyStr) (n : Nat) (e b t fo fi fp : PyStr)
    (h : (view_whitelist req up).1 = ViewResult.ok content lines n e b t fo fi fp) :
    up (b, fp) = Upstream.ok content ∧ lines = viewLines content ∧ n = lines.length := by
  unfold view_whitelist at h
  split at h
  · simp at h
  · split at h
    · simp at h
    · split at h
      · simp at h
      · split at h
        · next text heq =>
          injection h with h1 h2 h3 h4 h5 h6 h7 h8 h9
          subst h1
          subst h2
          subst h3
          subst h4
          subst h5
          subst h6
          subst h7
          subst h8
          subst h9
          exact ⟨heq, rfl, rfl⟩
        · simp at h

/-- C4 witness: the amended theorem applied at a concrete 200 response. -/
theorem C4_view_lines_amended_witness :
    ((fun _ => Upstream.ok (pstr ("a\n\nb"))) :
        PyStr × PyStr → Upstream) (pstr ("jenkins-store-ort"), pstr ("tenants/acme/Whitelist.csv")) =
      Upstream.ok (pstr ("a\n\nb")) ∧
    [pstr ("a"), [], pstr ("b")] = viewLines (pstr ("a\n\nb")) ∧
    3 = [pstr ("a"), [], pstr ("b")].length :=
  C4_view_lines_amended viewReqOkAuth (fun _ => Upstream.ok (pstr ("a\n\nb")))
    (pstr ("a\n\nb")) [pstr ("a"), [], pstr ("b")] 3 (pstr ("ort"))
    (pstr ("jenkins-store-ort")) (pstr ("acme")) (pstr ("tenants/acme")) wcsv
    (pstr ("tenants/acme/Whitelist.csv")) (by decide)

/-- A GET view request whose Authorization header uses the `Bearer` scheme
around valid base64 of `user:pass`. -/
def viewReqBearer : ViewRequest :=
  { method := .GET, argsEnvironment := some (pstr ("ort")), argsTenant := some (pstr ("acme")),
    argsFile := none, json := none, authorization := some (pstr ("Bearer dXNlcjpwYXNz")) }

/-- C5 counterexample: a view request whose Authorization header does not
start with `Basic ` is not rejected: the handler never checks the scheme,
decodes the second space-separated token, issues the upstream read, and
forwards the upstream status instead of returning 401. -/
theorem C5_counterexample :
    (view_whitelist viewReqBearer (fun _ => Upstream.err 404)).1 =
      ViewResult.upstreamError (pstr ("tenants/acme/Whitelist.csv"))
        (pstr ("jenkins-store-ort")) 404 ∧
    (view_whitelist viewReqBearer (fun _ => Upstream.err 404)).2 =
      some (pstr ("jenkins-store-ort"), pstr ("tenants/acme/Whitelist.csv")) := by
  decide

/-- C5 (amended): on `/whitelist/view`, a missing Authorization header gets
401 with no upstream read, and a header whose credential extraction fails
(no second space-separated token, or a token that is not decodable base64
of a UTF-8 string containing a colon) gets 401 with no upstream read; but
the `Basic` scheme itself is never checked: any header whose second token
decodes to a colon-containing string proceeds to the upstream read. -/
theorem C5_view_auth_amended (req : ViewRequest) (up : PyStr × PyStr → Upstream)
    (henv : pyTruthy (viewParams req).1 = true)
    (hten : pyTruthy (viewParams req).2.1 = true) :
    (req.authorization = none →
       view_whitelist req up = (ViewResult.authRequired, none)) ∧
    (∀ hdr, req.authorization = some hdr → parseCreds hdr = none →
       view_whitelist req up = (ViewResult.invalidAuth, none)) ∧
    (∀ hdr c, req.authorization = some hdr → parseCreds hdr = some c →
       (view_whitelist req up).2 =
         some (branch_name ((viewParams req).1.getD []),
               pstr ("tenants/") ++ (viewParams req).2.1.getD [] ++ pstr ("/")
                 ++ (viewParams req).2.2)) := by
  refine ⟨?_, ?_, ?_⟩
  · intro ha
    simp [view_whitelist, henv, hten, ha]
  · intro hdr hh hp
    simp [view_whitelist, henv, hten, hh, hp]
  · intro hdr c hh hp
    simp only [view_whitelist, henv, hten, Bool.and_self, Bool.not_true, hh, hp]
    rcases hup : up (viewKey req) with text | code <;>
      simp [hup, viewKey, viewPath, viewFolder, viewTenant, viewFile, viewEnvironment]

/-- C5 witness: the amended theorem applied at concrete requests with a
missing header and with a malformed one. -/
theorem C5_view_auth_amended_witness :
    view_whitelist { viewReqOkAuth with authorization := none }
        (fun _ => Upstream.err 404) = (ViewResult.authRequired, none) ∧
    view_whitelist { viewReqOkAuth with authorization := some (pstr ("Basic !!!")) }
        (fun _ => Upstream.err 404) = (ViewResult.invalidAuth, none) :=
  ⟨(C5_view_auth_amended { viewReqOkAuth with authorization := none }
      (fun _ => Upstream.err 404) (by decide) (by decide)).1 rfl,
   (C5_view_auth_amended { viewReqOkAuth with authorization := some (pstr ("Basic !!!")) }
      (fun _ => Upstream.err 404) (by decide) (by decide)).2.1 (pstr ("Basic !!!")) rfl
      (by decide)⟩

/-! ## Claim C1: the add/view round trip -/

/-- An add request writing `1.2.3.4` for tenant `acme` in `ort` at the
default file name, with valid Basic credentials. -/
def addReqC1 : AddRequest :=
  { argsEntry := some (pstr ("1.2.3.4")), argsEnvironment := some (pstr ("ort")),
    argsTenant := some (pstr ("acme")), argsFile := none, json := none,
    authorization := some (pstr ("Basic dXNlcjpwYXNz")) }

/-- C1 counterexample: an entry added successfully for (`ort`, `acme`,
`Whitelist.csv`) lands at the bare file name in the repository, but the
subsequent view on the same environment, tenant and file name reads
`tenants/acme/Whitelist.csv`, finds nothing there, and returns the
upstream 404 — the appended entry does not appear as the last line of any
returned content. -/
theorem C1_counterexample :
    (add_whitelist_entry addReqC1 allOkWorld emptyRepo).1 =
      AddResult.success (pstr ("1.2.3.4")) (pstr ("ort")) (pstr ("jenkins-store-ort"))
        (pstr ("acme")) (pstr ("acme")) wcsv wcsv
        (pstr ("Add acme whitelist entry in ort: 1.2.3.4")) ∧
    (add_whitelist_entry addReqC1 allOkWorld emptyRepo).2.repoAfter
        (pstr ("jenkins-store-ort"), wcsv) =
      some (pstr ("# Whitelist for acme in ort\n# Format: IP,Description,Status\n1.2.3.4\n")) ∧
    (view_whitelist viewReqOkAuth
        (repoUpstream (add_whitelist_entry addReqC1 allOkWorld emptyRepo).2.repoAfter)).1 =
      ViewResult.upstreamError (pstr ("tenants/acme/Whitelist.csv"))
        (pstr ("jenkins-store-ort")) 404 := by
  decide

lemma tenantsPath_ne_wcsv (t f : PyStr) : tenantsPath t f ≠ wcsv := by
  intro h
  have h1 : tenantsPath t f = 't' :: ((pstr ("enants/") ++ t ++ pstr ("/")) ++ f) := rfl
  have h2 : wcsv = 'W' :: pstr ("hitelist.csv") := rfl
  rw [h1, h2] at h
  injection h with hc _
  exact absurd hc (by decide)

lemma fileHeader_getLast (tenant environment : PyStr) :
    (fileHeader tenant environment).getLast? = some '\n' := by
  unfold fileHeader
  rw [List.getLast?_append_of_ne_nil _ (by decide)]
  decide

lemma getLast?_viewLines_newFileContent (old : Option PyStr) (tenant environment entry : PyStr)
    (hnl : '\n' ∉ entry) (hne : entry ≠ [])
    (hhead : pyIsSpace (entry.headD 'a') = false)
    (hlast : pyIsSpace (entry.getLastD 'a') = false)
    (hold : old = none ∨ ∃ p, old = some p ∧ (p = [] ∨ p.getLast? = some '\n')) :
    (viewLines (newFileContent old tenant environment entry)).getLast? = some entry := by
  have hbase : (match old with
      | none => fileHeader tenant environment
      | some s => s) = [] ∨
      (match old with
      | none => fileHeader tenant environment
      | some s => s).getLast? = some '\n' := by
    rcases hold with h | ⟨p, hp1, hp2⟩
    · rw [h]
      exact Or.inr (fileHeader_getLast tenant environment)
    · rw [hp1]
      exact hp2
  unfold newFileContent
  exact getLast?_viewLines_append _ entry hbase hnl hne hhead hlast

lemma add_success_eval (environment tenant entry file authHdr : PyStr) (w : MutatorWorld)
    (repo : Repo) (cr : PyStr × PyStr)
    (henv : environment ≠ []) (hten : tenant ≠ []) (hne : entry ≠ [])
    (hval : validate_input entry environment tenant = [])
    (hb : basicTag.isPrefixOf authHdr = true)
    (hp : parseCreds authHdr = some cr)
    (hclone : w.cloneOk = true) (hexn : w.bodyExn = false)
    (hcommit : w.commitOk = true) (hpush : w.pushOk = true) :
    add_whitelist_entry
      { argsEntry := some entry, argsEnvironment := some environment,
        argsTenant := some tenant, argsFile := some (tenantsPath tenant file),
        json := none, authorization := some authHdr } w repo =
    (AddResult.success entry environment (branch_name environment) tenant tenant
       (tenantsPath tenant file) (tenantsPath tenant file)
       (commitMessageFor tenant environment entry),
     cleanupEffects w (fun k =>
       if k = (branch_name environment, tenantsPath tenant file) then
         some (newFileContent (repo (branch_name environment, tenantsPath tenant file))
                 tenant environment entry)
       else repo k)) := by
  have he1 : entry.isEmpty = false := List.isEmpty_eq_false.mpr hne
  have henv1 : environment.isEmpty = false := List.isEmpty_eq_false.mpr henv
  have hten1 : tenant.isEmpty = false := List.isEmpty_eq_false.mpr hten
  simp only [add_whitelist_entry, addEntryParam, addEnvironmentParam, addTenantParam,
    addFileParam, jsonOf, Option.getD_none, Option.getD_some, pyTruthy,
    he1, henv1, hten1, Bool.not_false, Bool.not_true, if_false, if_true,
    Bool.false_eq_true, ite_false, ite_true, hval, ne_eq, not_true_eq_false,
    hb, hp]
  rw [if_neg (tenantsPath_ne_wcsv tenant file)]
  simp only [runMutator, hclone, hexn, hcommit, hpush, Bool.not_true, Bool.false_eq_true,
    if_false, ite_false]

lemma view_get_ok_eval (environment tenant file authHdr text : PyStr)
    (up : PyStr × PyStr → Upstream) (cr : PyStr × PyStr)
    (henv : environment ≠ []) (hten : tenant ≠ [])
    (hp : parseCreds authHdr = some cr)
    (hup : up (branch_name environment, tenantsPath tenant file) = Upstream.ok text) :
    view_whitelist
      { method := .GET, argsEnvironment := some environment, argsTenant := some tenant,
        argsFile := some file, json := none, authorization := some authHdr } up =
    (ViewResult.ok text (viewLines text) (viewLines text).length environment
       (branch_name environment) tenant (pstr ("tenants/") ++ tenant) file
       (tenantsPath tenant file),
     some (branch_name environment, tenantsPath tenant file)) := by
  have henv1 : environment.isEmpty = false := List.isEmpty_eq_false.mpr henv
  have hten1 : tenant.isEmpty = false := List.isEmpty_eq_false.mpr hten
  have hk : viewKey
      { method := .GET, argsEnvironment := some environment, argsTenant := some tenant,
        argsFile := some file, json := none, authorization := some authHdr } =
      (branch_name environment, tenantsPath tenant file) := rfl
  simp only [view_whitelist, viewParams, viewEnvironment, viewTenant, viewFile, viewFolder,
    viewPath, pyTruthy, henv1, hten1, Bool.not_false, Bool.and_self, Bool.not_true,
    Bool.false_eq_true, if_false, ite_false, hp, hk, hup, Option.getD_some]
  rfl

/-- C1 (amended): with the code's path conventions the round trip holds
only when the add request's file name is itself `tenants/<tenant>/<file>`,
because `add` writes at the bare file name at the repository root while
`view` reads at `tenants/<tenant>/<file>`.  Under matching keys — any
successful add whose file parameter is `tenantsPath tenant file`, followed
by a view on the same environment, tenant and `file` — the view returns
200 with the mutated content, whose last line is the appended entry
(provided the entry has no interior newline, no leading or trailing
whitespace, and the prior content, when present, is empty or
newline-terminated).  For the default paths the round trip fails, as the
counterexample shows. -/
theorem C1_roundtrip_amended (environment tenant entry file authHdr : PyStr)
    (w : MutatorWorld) (repo : Repo) (cr : PyStr × PyStr)
    (henv : environment ≠ []) (hten : tenant ≠ []) (hne : entry ≠ [])
    (hval : validate_input entry environment tenant = [])
    (hb : basicTag.isPrefixOf authHdr = true)
    (hp : parseCreds authHdr = some cr)
    (hclone : w.cloneOk = true) (hexn : w.bodyExn = false)
    (hcommit : w.commitOk = true) (hpush : w.pushOk = true)
    (hnl : '\n' ∉ entry)
    (hhead : pyIsSpace (entry.headD 'a') = false)
    (hlast : pyIsSpace (entry.getLastD 'a') = false)
    (hprior : repo (branch_name environment, tenantsPath tenant file) = none ∨
      ∃ p, repo (branch_name environment, tenantsPath tenant file) = some p ∧
           (p = [] ∨ p.getLast? = some '\n')) :
    (view_whitelist
        { method := .GET, argsEnvironment := some environment, argsTenant := some tenant,
          argsFile := some file, json := none, authorization := some authHdr }
        (repoUpstream
          (add_whitelist_entry
            { argsEntry := some entry, argsEnvironment := some environment,
              argsTenant := some tenant, argsFile := some (tenantsPath tenant file),
              json := none, authorization := some authHdr } w repo).2.repoAfter)).1 =
      ViewResult.ok
        (newFileContent (repo (branch_name environment, tenantsPath tenant file))
           tenant environment entry)
        (viewLines (newFileContent (repo (branch_name environment, tenantsPath tenant file))
           tenant environment entry))
        (viewLines (newFileContent (repo (branch_name environment, tenantsPath tenant file))
           tenant environment entry)).length
        environment (branch_name environment) tenant (pstr ("tenants/") ++ tenant) file
        (tenantsPath tenant file) ∧
    (viewLines (newFileContent (repo (branch_name environment, tenantsPath tenant file))
       tenant environment entry)).getLast? = some entry := by
  have hadd := add_success_eval environment tenant entry file authHdr w repo cr
    henv hten hne hval hb hp hclone hexn hcommit hpush
  have hrepo : (add_whitelist_entry
      { argsEntry := some entry, argsEnvironment := some environment,
        argsTenant := some tenant, argsFile := some (tenantsPath tenant file),
        json := none, authorization := some authHdr } w repo).2.repoAfter =
      (fun k => if k = (branch_name environment, tenantsPath tenant file) then
          some (newFileContent (repo (branch_name environment, tenantsPath tenant file))
                  tenant environment entry)
        else repo k) := by
    rw [hadd]
    rfl
  have hup : repoUpstream
      ((add_whitelist_entry
        { argsEntry := some entry, argsEnvironment := some environment,
          argsTenant := some tenant, argsFile := some (tenantsPath tenant file),
          json := none, authorization := some authHdr } w repo).2.repoAfter)
      (branch_name environment, tenantsPath tenant file) =
      Upstream.ok (newFileContent (repo (branch_name environment, tenantsPath tenant file))
        tenant environment entry) := by
    rw [hrepo]
    simp only [repoUpstream, if_pos]
  constructor
  · rw [view_get_ok_eval environment tenant file authHdr _ _ cr henv hten hp hup]
  · exact getLast?_viewLines_newFileContent _ tenant environment entry hnl hne hhead hlast hprior

/-- C1 witness: the amended round trip at a concrete request, the add
writing at `tenants/acme/Whitelist.csv` and the view reading it back, with
the appended entry as the last returned line. -/
theorem C1_roundtrip_amended_witness :
    (view_whitelist
        { method := .GET, argsEnvironment := some (pstr ("ort")),
          argsTenant := some (pstr ("acme")), argsFile := some wcsv, json := none,
          authorization := some (pstr ("Basic dXNlcjpwYXNz")) }
        (repoUpstream
          (add_whitelist_entry
            { argsEntry := some (pstr ("1.2.3.4")), argsEnvironment := some (pstr ("ort")),
              argsTenant := some (pstr ("acme")),
              argsFile := some (tenantsPath (pstr ("acme")) wcsv), json := none,
              authorization := some (pstr ("Basic dXNlcjpwYXNz")) }
            allOkWorld emptyRepo).2.repoAfter)).1 =
      ViewResult.ok (newFileContent none (pstr ("acme")) (pstr ("ort")) (pstr ("1.2.3.4")))
        (viewLines (newFileContent none (pstr ("acme")) (pstr ("ort")) (pstr ("1.2.3.4"))))
        (viewLines (newFileContent none (pstr ("acme")) (pstr ("ort"))
          (pstr ("1.2.3.4")))).length
        (pstr ("ort")) (branch_name (pstr ("ort"))) (pstr ("acme"))
        (pstr ("tenants/") ++ pstr ("acme")) wcsv (tenantsPath (pstr ("acme")) wcsv) ∧
    (viewLines (newFileContent none (pstr ("acme")) (pstr ("ort"))
      (pstr ("1.2.3.4")))).getLast? = some (pstr ("1.2.3.4")) :=
  C1_roundtrip_amended (pstr ("ort")) (pstr ("acme")) (pstr ("1.2.3.4")) wcsv
    (pstr ("Basic dXNlcjpwYXNz")) allOkWorld emptyRepo (pstr ("user"), pstr ("pass"))
    (by decide) (by decide) (by decide) (by decide) (by decide) (by decide)
    rfl rfl rfl rfl (by decide) (by decide) (by decide) (Or.inl rfl)
